import Mathlib

/-!
Verification of `check_vertex_models.py`, a diagnostic script that probes
which Gemini models are reachable in a Vertex AI region by invoking the
external `lexoid.parse` call once per candidate model and classifying the
outcome by inspecting either the returned response dictionary or the text
of the raised exception.

The external `parse` call is modelled as an oracle producing, per model
name, either a raised exception message or a returned Python dictionary.
Python dictionaries are embedded as association lists of string keys to a
small value type; Python truthiness, `dict.get`, and subscripting (with
its `KeyError`) are embedded explicitly.
-/

/-- A Python value as far as this script observes it: a string, an integer,
or a dictionary with string keys. -/
inductive PyVal where
  | str (s : String)
  | int (n : Int)
  | dict (d : List (String × PyVal))

/-- A Python dictionary with string keys, as returned by `parse`. -/
abbrev PyDict := List (String × PyVal)

/-- Python truthiness of a value: empty strings, zero, and empty
dictionaries are falsy. -/
def pyTruthy : PyVal → Bool
  | .str s => !s.isEmpty
  | .int n => n != 0
  | .dict d => !d.isEmpty

/-- Python truthiness of an optional value: `None` is falsy. -/
def pyTruthyOpt : Option PyVal → Bool
  | none => false
  | some v => pyTruthy v

/-- `d.get(k)` on a Python dictionary: the value at the first matching key,
or `None`. -/
def dictGet (d : PyDict) (k : String) : Option PyVal :=
  (d.find? (fun p => p.1 == k)).map (fun p => p.2)

/-- The single-quote character, used in Python exception texts. -/
def quoteChar : String := String.singleton (Char.ofNat 39)

/-- `str(KeyError(k))`: the missing key wrapped in single quotes. -/
def keyErrorMsg (k : String) : String := quoteChar ++ k ++ quoteChar

/-- `d[k]` on a Python dictionary: the value, or a raised `KeyError`. -/
def dictIndex (d : PyDict) (k : String) : Except String PyVal :=
  match dictGet d k with
  | some v => Except.ok v
  | none => Except.error (keyErrorMsg k)

/-- `v[k]` on an arbitrary Python value: dictionary lookup, or the
`TypeError` Python raises when subscripting a non-dictionary with a
string key. -/
def pySubscript (v : PyVal) (k : String) : Except String PyVal :=
  match v with
  | .dict d => dictIndex d k
  | .str _ => Except.error "string indices must be integers"
  | .int _ => Except.error (quoteChar ++ "int" ++ quoteChar ++ " object is not subscriptable")

/-- Whether the first character list is an initial segment of the second. -/
def listStartsWith : List Char → List Char → Bool
  | [], _ => true
  | _ :: _, [] => false
  | a :: as, b :: bs => a == b && listStartsWith as bs

/-- Whether the first character list occurs contiguously in the second. -/
def listContains (needle : List Char) : List Char → Bool
  | [] => needle.isEmpty
  | b :: bs => listStartsWith needle (b :: bs) || listContains needle bs

/-- Python substring test `needle in hay`. -/
def pyIn (needle hay : String) : Bool :=
  listContains needle.toList hay.toList

/-- Python `s.lower()`: lower-case every character. -/
def pyLower (s : String) : String := String.mk (s.data.map Char.toLower)

/-- Python slice `s[:n]`: the first `n` characters of `s`. -/
def pyTake (s : String) (n : Nat) : String := String.mk (s.data.take n)

/-- The classification of a caught exception text in `test_model`
(lines 30-38 of the source): the 404 / not-found branch is checked first,
then the 400 branch, then the truncated generic message. -/
def classify_error (error_msg : String) : String :=
  if pyIn "404" error_msg || pyIn "not found" (pyLower error_msg) then
    "NOT AVAILABLE in this region"
  else if pyIn "400" error_msg then
    "Available but request format issue"
  else
    "Error: " ++ pyTake error_msg 100

/-- One behaviour of the external `parse` call: it either raises an
exception carrying a textual message, or returns a response dictionary. -/
inductive ParseOutcome where
  | raises (msg : String)
  | returns (result : PyDict)

/-- `test_model` (lines 8-38 of the source), as a function of the
behaviour of the external `parse` call. It returns the boolean result of
the Python function together with the detail text of the status line it
prints. The success path evaluates `result['token_usage']['total']`
inside the `try` block before returning `True`, so a `KeyError` or
`TypeError` there is caught and classified like any other exception. -/
def test_model (po : ParseOutcome) : Bool × String :=
  match po with
  | .returns result =>
    if pyTruthy (.dict result) && pyTruthyOpt (dictGet result "raw") then
      match dictIndex result "token_usage" with
      | .error e => (false, classify_error e)
      | .ok tu =>
        match pySubscript tu "total" with
        | .error e => (false, classify_error e)
        | .ok _ => (true, "AVAILABLE and working")
    else
      (false, "Failed (no response)")
  | .raises e => (false, classify_error e)

/-- The fixed candidate list of `main` (lines 61-72 of the source):
seven (model identifier, human label) pairs, in source order. -/
def models : List (String × String) :=
  [("gemini-1.5-flash", "GA - Recommended"),
   ("gemini-1.5-pro", "GA - High accuracy"),
   ("gemini-1.0-pro", "GA - Legacy"),
   ("gemini-2.0-flash-exp", "Experimental"),
   ("gemini-2.5-flash", "Preview"),
   ("gemini-2.5-pro", "Preview"),
   ("gemini-2.5-flash-lite", "Preview - Limited availability")]

/-- The probing loop of `main` (lines 79-84 of the source): each candidate
is probed once, in list order, and appended to the `available` bucket when
`test_model` returns `True` and to the `unavailable` bucket otherwise. -/
def bucket (oracle : String → ParseOutcome) :
    List (String × String) → List (String × String) × List (String × String)
  | [] => ([], [])
  | m :: rest =>
    let r := bucket oracle rest
    if (test_model (oracle m.1)).1 then (m :: r.1, r.2) else (r.1, m :: r.2)

/-- The remediation message printed when `GCP_PROJECT` is unset or empty
(lines 49-50 of the source). -/
def remediationMessage : List String :=
  ["❌ Error: GCP_PROJECT environment variable not set",
   "   Set it with: export GCP_PROJECT=your-project-id"]

/-- The two-option recommendation printed when `gemini-2.5-flash` is in
the available bucket (lines 105-111 of the source). -/
def twoOptionRecommendation : List String :=
  ["🎉 Gemini 2.5 Flash is available in your region!",
   "You have two good options:",
   "1. Conservative (Production):",
   "   model = " ++ quoteChar ++ "gemini-1.5-flash" ++ quoteChar ++ "  # GA, stable, proven",
   "2. Cutting-edge (Preview):",
   "   model = " ++ quoteChar ++ "gemini-2.5-flash" ++ quoteChar ++ "  # Better accuracy, preview status",
   "⚠️  Note: Preview models may have breaking changes"]

/-- The single-option recommendation printed when `gemini-2.5-flash` is
not in the available bucket (lines 113-115 of the source). -/
def singleRecommendation : List String :=
  ["✅ Use Gemini 1.5 Flash (GA - Production Ready)",
   "   model = " ++ quoteChar ++ "gemini-1.5-flash" ++ quoteChar,
   "❌ Gemini 2.5 models not available in your region yet"]

/-- The observable result of one run of `main`: either the early abort on
a missing project variable (with the remediation text printed), or a
completed run with its two buckets and the recommendation section it
prints. -/
inductive MainResult where
  | missingProject (remediation : List String)
  | completed (available unavailable : List (String × String))
      (recommendation : List String)

/-- The Python `main` function (lines 41-115 of the source), as a function
of the process environment and of the behaviour of the external `parse`
call per model name. `os.environ.get("GCP_PROJECT")` is falsy when the
variable is unset or the empty string; in that case the run aborts after
printing the remediation message. Otherwise every candidate is probed and
the recommendation branch is chosen by the membership test
`("gemini-2.5-flash", "Preview") in available` (line 104).
(Named `mainRun` because Lean reserves `main` for an executable entry
point.) -/
def mainRun (env : String → Option String) (oracle : String → ParseOutcome) :
    MainResult :=
  match env "GCP_PROJECT" with
  | none => MainResult.missingProject remediationMessage
  | some p =>
    if p = "" then MainResult.missingProject remediationMessage
    else if ("gemini-2.5-flash", "Preview") ∈ (bucket oracle models).1 then
      MainResult.completed (bucket oracle models).1 (bucket oracle models).2
        twoOptionRecommendation
    else
      MainResult.completed (bucket oracle models).1 (bucket oracle models).2
        singleRecommendation

/-- The Python `main` returns `None` on every path and the script never
calls `sys.exit` with a non-zero code, so the process exit code is 0 for
every run outcome. -/
def exitCode : MainResult → Nat := fun _ => 0

/-! ### General lemmas about the probing loop -/

/-- The two buckets together account for every candidate exactly once. -/
theorem bucket_length (oracle : String → ParseOutcome) :
    ∀ l : List (String × String),
      (bucket oracle l).1.length + (bucket oracle l).2.length = l.length := by
  intro l
  induction l with
  | nil => rfl
  | cons m rest ih =>
    simp only [bucket]
    split
    · simpa using by omega
    · simpa using by omega

/-- Each bucket is an order-preserving subsequence of the candidate list. -/
theorem bucket_sublist (oracle : String → ParseOutcome) :
    ∀ l : List (String × String),
      (bucket oracle l).1.Sublist l ∧ (bucket oracle l).2.Sublist l := by
  intro l
  induction l with
  | nil => exact ⟨List.Sublist.refl _, List.Sublist.refl _⟩
  | cons m rest ih =>
    simp only [bucket]
    split
    · exact ⟨List.Sublist.cons₂ m ih.1, List.Sublist.cons m ih.2⟩
    · exact ⟨List.Sublist.cons m ih.1, List.Sublist.cons₂ m ih.2⟩

/-- A candidate whose probe fails lands in the unavailable bucket. -/
theorem bucket_mem_right (oracle : String → ParseOutcome)
    (m : String × String) :
    ∀ l : List (String × String), m ∈ l →
      (test_model (oracle m.1)).1 = false → m ∈ (bucket oracle l).2 := by
  intro l hm hf
  induction l with
  | nil => cases hm
  | cons a rest ih =>
    simp only [bucket]
    rcases List.mem_cons.mp hm with h | h
    · subst h
      rw [hf]
      simp
    · split
      · exact ih h
      · exact List.mem_cons_of_mem _ (ih h)

/-! ### Claim theorems -/

/-- C2: for every error message raised by the external parse call that
contains both the substring "404" and the substring "400", `test_model`
classifies the probe via the 404 branch (reason "NOT AVAILABLE in this
region"), not via the 400 branch. -/
theorem test_model_404_precedes_400 (msg : String)
    (h4 : pyIn "404" msg = true) (_h0 : pyIn "400" msg = true) :
    test_model (.raises msg) = (false, "NOT AVAILABLE in this region") ∧
    (test_model (.raises msg)).2 ≠ "Available but request format issue" := by
  have hc : test_model (.raises msg) = (false, "NOT AVAILABLE in this region") := by
    simp [test_model, classify_error, h4]
  refine ⟨hc, ?_⟩
  rw [hc]
  decide

/-- Witness for C2 at the concrete message "Error 404 and 400". -/
theorem test_model_404_precedes_400_witness :
    pyIn "404" "Error 404 and 400" = true ∧
    pyIn "400" "Error 404 and 400" = true ∧
    test_model (.raises "Error 404 and 400") =
      (false, "NOT AVAILABLE in this region") :=
  ⟨by decide, by decide,
    (test_model_404_precedes_400 "Error 404 and 400" (by decide) (by decide)).1⟩

/-- C5: for every error message raised by the external parse call that
contains the substring "404" or contains "not found" case-insensitively,
`test_model` classifies the probe as unavailable with a reason containing
"NOT AVAILABLE in this region". -/
theorem test_model_not_found_branch (msg : String)
    (h : pyIn "404" msg = true ∨ pyIn "not found" (pyLower msg) = true) :
    (test_model (.raises msg)).1 = false ∧
    pyIn "NOT AVAILABLE in this region" (test_model (.raises msg)).2 = true := by
  have hc : (pyIn "404" msg || pyIn "not found" (pyLower msg)) = true := by
    rcases h with h | h <;> simp [h]
  have ht : test_model (.raises msg) = (false, "NOT AVAILABLE in this region") := by
    simp [test_model, classify_error, hc]
  rw [ht]
  exact ⟨rfl, by decide⟩

/-- Witness for C5 at the concrete message "Model not found in region". -/
theorem test_model_not_found_branch_witness :
    pyIn "not found" (pyLower "Model not found in region") = true ∧
    (test_model (.raises "Model not found in region")).1 = false ∧
    pyIn "NOT AVAILABLE in this region"
      (test_model (.raises "Model not found in region")).2 = true :=
  ⟨by decide, test_model_not_found_branch "Model not found in region"
    (Or.inr (by decide))⟩

/-- C6: for every error message raised by the external parse call that
contains "400" and does not match the 404 / not-found branch, `test_model`
records the malformed-request reason yet returns `False`, so the
candidate is placed in the unavailable bucket and the run continues. -/
theorem test_model_400_branch (msg : String)
    (h0 : pyIn "400" msg = true)
    (h4 : (pyIn "404" msg || pyIn "not found" (pyLower msg)) = false) :
    test_model (.raises msg) = (false, "Available but request format issue") ∧
    ∀ oracle : String → ParseOutcome, ∀ m ∈ models,
      oracle m.1 = .raises msg → m ∈ (bucket oracle models).2 := by
  have h1 : test_model (.raises msg) =
      (false, "Available but request format issue") := by
    simp [test_model, classify_error, h4, h0]
  refine ⟨h1, ?_⟩
  intro oracle m hm ho
  exact bucket_mem_right oracle m models hm (by rw [ho, h1])

/-- Witness for C6 at the concrete message "400 Bad Request: invalid field". -/
theorem test_model_400_branch_witness :
    pyIn "400" "400 Bad Request: invalid field" = true ∧
    (pyIn "404" "400 Bad Request: invalid field" ||
      pyIn "not found" (pyLower "400 Bad Request: invalid field")) = false ∧
    test_model (.raises "400 Bad Request: invalid field") =
      (false, "Available but request format issue") ∧
    ("gemini-1.5-flash", "GA - Recommended") ∈
      (bucket (fun _ => .raises "400 Bad Request: invalid field") models).2 := by
  have h := test_model_400_branch "400 Bad Request: invalid field"
    (by decide) (by decide)
  exact ⟨by decide, by decide, h.1,
    h.2 _ ("gemini-1.5-flash", "GA - Recommended") (by simp [models]) rfl⟩

/-- C7: for every error message raised by the external parse call that
matches neither the 404 / not-found branch nor the 400 branch, the probe
is classified unavailable with reason "Error: " followed by the first 100
characters of the error text. -/
theorem test_model_other_error_branch (msg : String)
    (h4 : (pyIn "404" msg || pyIn "not found" (pyLower msg)) = false)
    (h0 : pyIn "400" msg = false) :
    test_model (.raises msg) = (false, "Error: " ++ pyTake msg 100) := by
  simp [test_model, classify_error, h4, h0]

/-- Witness for C7 at the concrete message "permission denied for project". -/
theorem test_model_other_error_branch_witness :
    (pyIn "404" "permission denied for project" ||
      pyIn "not found" (pyLower "permission denied for project")) = false ∧
    pyIn "400" "permission denied for project" = false ∧
    test_model (.raises "permission denied for project") =
      (false, "Error: " ++ pyTake "permission denied for project" 100) :=
  ⟨by decide, by decide,
    test_model_other_error_branch "permission denied for project"
      (by decide) (by decide)⟩

/-- C3 counterexample: a successful response that is non-empty and has a
non-empty "raw" field is nevertheless classified as failed, because the
success path also reads `result['token_usage']['total']` before returning
`True`. So "available exactly when non-empty with non-empty raw" is false
as stated. -/
theorem test_model_raw_only_not_available :
    (pyTruthy (.dict [("raw", PyVal.str "hello")]) &&
      pyTruthyOpt (dictGet [("raw", PyVal.str "hello")] "raw")) = true ∧
    (test_model (.returns [("raw", PyVal.str "hello")])).1 = false := by
  exact ⟨rfl, rfl⟩

/-- C3 (amended): a probe on a returned response is classified available
only if the response is non-empty and its "raw" field is non-empty, and
every successful response failing that check is classified as a failure
with detail "no response". (The converse of the first part fails: see the
counterexample, where the token-usage lookup raises.) -/
theorem test_model_success_classification (result : PyDict) :
    ((test_model (.returns result)).1 = true →
      (pyTruthy (.dict result) && pyTruthyOpt (dictGet result "raw")) = true) ∧
    ((pyTruthy (.dict result) && pyTruthyOpt (dictGet result "raw")) = false →
      test_model (.returns result) = (false, "Failed (no response)")) := by
  constructor
  · intro h
    cases hc : (pyTruthy (.dict result) && pyTruthyOpt (dictGet result "raw")) with
    | true => rfl
    | false => simp [test_model, hc] at h
  · intro h
    simp [test_model, h]

/-- Witness for C3 (amended) at the empty response dictionary. -/
theorem test_model_success_classification_witness :
    (pyTruthy (.dict ([] : PyDict)) && pyTruthyOpt (dictGet [] "raw")) = false ∧
    test_model (.returns []) = (false, "Failed (no response)") :=
  ⟨rfl, (test_model_success_classification []).2 rfl⟩

/-- C9: a successful response with a non-empty "raw" field but no
"token_usage" key is classified as failed with a reason beginning
"Error:", because the success path reads `result['token_usage']['total']`
inside the guarded `try` block before returning `True`; the caught
`KeyError` text contains none of the classified substrings. -/
theorem test_model_token_usage_keyerror :
    test_model (.returns [("raw", PyVal.str "ok")]) =
      (false, "Error: " ++ keyErrorMsg "token_usage") ∧
    listStartsWith "Error:".toList
      (test_model (.returns [("raw", PyVal.str "ok")])).2.toList = true := by
  exact ⟨rfl, rfl⟩

/-- C1: whenever `main` completes its run, every candidate in the fixed
seven-entry model list yields exactly one outcome, each outcome lands in
exactly one bucket, and the bucket sizes sum to the candidate count. -/
theorem mainRun_outcome_conservation (env : String → Option String)
    (oracle : String → ParseOutcome)
    (av un : List (String × String)) (rec : List String)
    (h : mainRun env oracle = MainResult.completed av un rec) :
    av.length + un.length = models.length := by
  unfold mainRun at h
  split at h
  · exact MainResult.noConfusion h
  · split at h
    · exact MainResult.noConfusion h
    · split at h
      all_goals
        injection h with h1 h2 h3
        subst h1
        subst h2
        exact bucket_length oracle models

/-- Witness for C1: a run where every probe raises a 404-style error
completes with an empty available bucket and all seven candidates
unavailable. -/
theorem mainRun_outcome_conservation_witness :
    mainRun (fun _ => some "demo") (fun _ => .raises "404") =
      MainResult.completed [] models singleRecommendation ∧
    ([] : List (String × String)).length + models.length = models.length := by
  have hrun : mainRun (fun _ => some "demo") (fun _ => .raises "404") =
      MainResult.completed [] models singleRecommendation := by rfl
  exact ⟨hrun, mainRun_outcome_conservation _ _ [] models singleRecommendation hrun⟩

/-- C4: when `GCP_PROJECT` is unset or empty, `main` prints the
remediation message and terminates without invoking the prober on any
candidate (the result does not depend on the parse oracle), and the run
still exits with code 0. -/
theorem mainRun_missing_project_aborts (env : String → Option String)
    (oracle : String → ParseOutcome)
    (h : env "GCP_PROJECT" = none ∨ env "GCP_PROJECT" = some "") :
    mainRun env oracle = MainResult.missingProject remediationMessage ∧
    exitCode (mainRun env oracle) = 0 ∧
    ∀ oracle2 : String → ParseOutcome, mainRun env oracle2 = mainRun env oracle := by
  have habort : ∀ o : String → ParseOutcome,
      mainRun env o = MainResult.missingProject remediationMessage := by
    intro o
    unfold mainRun
    rcases h with h | h <;> simp [mainRun, h]
  exact ⟨habort oracle, rfl, fun o2 => by rw [habort o2, habort oracle]⟩

/-- Witness for C4 at an environment with no variables set. -/
theorem mainRun_missing_project_aborts_witness :
    ((fun _ : String => (none : Option String)) "GCP_PROJECT" = none ∨
      (fun _ : String => (none : Option String)) "GCP_PROJECT" = some "") ∧
    mainRun (fun _ => none) (fun _ => .raises "boom") =
      MainResult.missingProject remediationMessage :=
  ⟨Or.inl rfl,
    (mainRun_missing_project_aborts (fun _ => none) (fun _ => .raises "boom")
      (Or.inl rfl)).1⟩

/-- C10: for every behaviour of the external parse call, each bucket lists
its candidates in the same relative order as the fixed model list: both
the available and the unavailable sequences are order-preserving
subsequences of the candidate list. -/
theorem bucket_order_preserving (oracle : String → ParseOutcome) :
    ((bucket oracle models).1).Sublist models ∧
    ((bucket oracle models).2).Sublist models :=
  bucket_sublist oracle models

/-- C8: whenever a run reaches the report, the recommendation section is
the two-option message exactly when the candidate "gemini-2.5-flash" is
present in the available bucket, and is otherwise the single GA
recommendation with the note that the 2.5 models are unavailable. -/
theorem mainRun_recommendation_branch (env : String → Option String)
    (oracle : String → ParseOutcome)
    (av un : List (String × String)) (rec : List String)
    (h : mainRun env oracle = MainResult.completed av un rec) :
    (rec = twoOptionRecommendation ↔ ∃ p ∈ av, p.1 = "gemini-2.5-flash") ∧
    (rec = singleRecommendation ↔ ¬∃ p ∈ av, p.1 = "gemini-2.5-flash") := by
  have hne : twoOptionRecommendation ≠ singleRecommendation := by decide
  unfold mainRun at h
  split at h
  · exact MainResult.noConfusion h
  · split at h
    · exact MainResult.noConfusion h
    · split at h
      case isTrue hm =>
        injection h with h1 h2 h3
        subst h1
        subst h3
        refine ⟨⟨fun _ => ⟨_, hm, rfl⟩, fun _ => rfl⟩, ?_, ?_⟩
        · intro hs
          exact absurd hs hne
        · intro hn
          exact absurd ⟨_, hm, rfl⟩ hn
      case isFalse hm =>
        injection h with h1 h2 h3
        subst h1
        subst h3
        have hnex : ¬∃ p ∈ (bucket oracle models).1, p.1 = "gemini-2.5-flash" := by
          rintro ⟨p, hp, hname⟩
          have hpm : p ∈ models := ((bucket_sublist oracle models).1).subset hp
          have hpe : p = ("gemini-2.5-flash", "Preview") := by
            simp [models] at hpm
            rcases hpm with h | h | h | h | h | h | h <;> subst h <;> simp_all
          exact hm (hpe ▸ hp)
        refine ⟨⟨?_, ?_⟩, fun _ => hnex, fun _ => rfl⟩
        · intro hs
          exact absurd hs.symm hne
        · intro hex
          exact absurd hex hnex

/-- Witness for C8: a run where every probe raises a 404-style error has
an empty available bucket and prints the single-option recommendation. -/
theorem mainRun_recommendation_branch_witness :
    mainRun (fun _ => some "proj-1") (fun _ => .raises "404 model not here") =
      MainResult.completed [] models singleRecommendation ∧
    (singleRecommendation = singleRecommendation ↔
      ¬∃ p ∈ ([] : List (String × String)), p.1 = "gemini-2.5-flash") := by
  have hrun : mainRun (fun _ => some "proj-1")
      (fun _ => .raises "404 model not here") =
      MainResult.completed [] models singleRecommendation := by rfl
  exact ⟨hrun, (mainRun_recommendation_branch _ _ _ _ _ hrun).2⟩
